import Mathlib

/-!
Shallow embedding of the RobinHood portfolio tracker (Python sources) in Lean 4,
together with theorems settling the frozen claims about its specification.

Modelling conventions:
* Python floats are modelled as rationals (`ℚ`); the comparisons and arithmetic
  in the claims involve only exactly-representable decimal constants.
* Python strings are Lean `String`s; `str.lower()` / `str.upper()` /
  `x in s` / `str.capitalize()` are modelled by structural recursion over the
  underlying character lists (`pyLower`, `pyUpper`, `strContains`,
  `pyCapitalize`) so that everything kernel-evaluates.
* Python dicts are modelled as functions into `Option`; `d.get(k, default)`
  becomes `(d k).getD default`.  A key being present corresponds to `isSome`.
* Parsed datetimes are modelled as integer UNIX seconds (UTC).  A `none`
  timestamp models a missing/empty/unparseable `created_at` (the code skips
  the record in all three cases).  `dt.weekday()` is `(dayNumber + 3) % 7`
  (1970-01-01 was a Thursday) and the `%Y-%m-%d` key of the Monday-aligned
  week start is identified with the Monday's integer day number (the
  rendering of a date as `YYYY-MM-DD` is injective).
-/

namespace RH

/-- Python `s.lower()` restricted to the character-wise case mapping. -/
def pyLower (s : String) : String := ⟨s.data.map Char.toLower⟩

/-- Python `s.upper()` restricted to the character-wise case mapping. -/
def pyUpper (s : String) : String := ⟨s.data.map Char.toUpper⟩

/-- Auxiliary for substring containment: does `pat` occur in the list starting
at any position? -/
def containsFrom : List Char → List Char → Bool
  | h :: t, pat => pat.isPrefixOf (h :: t) || containsFrom t pat
  | [], pat => pat.isPrefixOf []

/-- Python `pat in s` (substring containment). -/
def strContains (s pat : String) : Bool := containsFrom s.data pat.data

/-- Python `s.capitalize()`: first character upper-cased, rest lower-cased. -/
def pyCapitalize (s : String) : String :=
  match s.data with
  | [] => ""
  | c :: rest => ⟨Char.toUpper c :: rest.map Char.toLower⟩

/-! ### `option_utils.simplified_strategy_detection` -/

/-- An option position as consumed by `simplified_strategy_detection`
(`option_utils.py`, lines 91–97): the fields the function reads, after the
`float(...)` conversions it performs. -/
structure OptPosition where
  symbol : String
  option_type : String
  strike_price : ℚ
  account_number : String
  quantity : ℚ

/-- Per-account data produced by `get_simplified_account_data`
(`option_utils.py`, lines 34–48). -/
structure AcctInfo where
  cash_for_options : ℚ
  acct_type : String

/-- Per-symbol, per-account stock holdings produced by
`get_stock_positions_for_cc_detection` (`option_utils.py`, lines 51–88). -/
structure StockShares where
  total_shares : ℚ
  collateral_shares : ℚ

/-- `stock_collateral[symbol].get(account_id, {}).get('collateral_shares', 0)`. -/
def resolved_collateral (per_acct : String → Option StockShares) (account_id : String) : ℚ :=
  ((per_acct account_id).map StockShares.collateral_shares).getD 0

/-- `stock_collateral[symbol].get(account_id, {}).get('total_shares', 0)`. -/
def resolved_total (per_acct : String → Option StockShares) (account_id : String) : ℚ :=
  ((per_acct account_id).map StockShares.total_shares).getD 0

/-- `account_data.get(account_id, {}).get('cash_for_options', 0)`. -/
def resolved_cash (account_data : String → Option AcctInfo) (account_id : String) : ℚ :=
  ((account_data account_id).map AcctInfo.cash_for_options).getD 0

/-- `option_utils.simplified_strategy_detection` (`option_utils.py`,
lines 91–120), translated clause by clause.  `0.9` is the exact decimal
`9/10`. -/
def simplified_strategy_detection (position : OptPosition)
    (account_data : String → Option AcctInfo)
    (stock_collateral : String → Option (String → Option StockShares)) : String :=
  let symbol := position.symbol
  let option_type := pyUpper position.option_type
  let strike_price := position.strike_price
  let account_id := position.account_number
  let quantity := position.quantity
  let strategy := option_type ++ " Position"
  if option_type = "CALL" ∧ (stock_collateral symbol).isSome then
    let per_acct := (stock_collateral symbol).getD (fun _ => none)
    if resolved_collateral per_acct account_id ≥ quantity * 100 then
      "Covered Call (CC)"
    else
      if resolved_total per_acct account_id ≥ quantity * 100 then
        "Covered Call (CC) - Holdings"
      else strategy
  else if option_type = "PUT" then
    let required_cash := strike_price * quantity * 100
    if resolved_cash account_data account_id ≥ required_cash * (9/10) then
      "Cash-Secured Put (CSP)"
    else strategy
  else strategy

/-! ### `config.load_config` -/

/-- The four environment variables `config.load_config` requires
(`config.py`, lines 11–16). -/
def required_vars : List String :=
  ["ROBINHOOD_USER", "ROBINHOOD_PASS", "MAIN_ACCOUNT", "SPREADSHEET_NAME"]

/-- Python truthiness test `not os.getenv(var)`: the variable is missing when
it is unset (`none`) or set to the empty string. -/
def envMissing (env : String → Option String) (v : String) : Bool :=
  (env v).getD "" = ""

/-- The `config["robinhood"]` block (`config.py`, lines 27–33). -/
structure RobinhoodConfig where
  username : Option String
  password : Option String
  account_id : Option String
  ira_account_id : Option String
  third_account_id : Option String
deriving DecidableEq

/-- The `config["google_sheets"]` block (`config.py`, lines 34–42). -/
structure SheetsConfig where
  credentials_file : String
  spreadsheet_name : Option String
  positions_sheet : String
  option_positions_sheet : String
  options_orders_sheet : String
  account_balances_sheet : String
  all_stock_positions_sheet : String
deriving DecidableEq

/-- The assembled configuration returned by `load_config`. -/
structure AppConfig where
  robinhood : RobinhoodConfig
  google_sheets : SheetsConfig
deriving DecidableEq

/-- `config.load_config` (`config.py`, lines 6–45).  The environment is the
explicit input; the raised `ValueError` is the `Except.error` case.  The
function is pure: it performs no network activity. -/
def load_config (env : String → Option String) : Except String AppConfig :=
  let missing_vars := required_vars.filter (envMissing env)
  if missing_vars ≠ [] then
    Except.error ("Missing required environment variables: " ++
      String.intercalate ", " missing_vars)
  else
    Except.ok
      { robinhood :=
          { username := env "ROBINHOOD_USER"
            password := env "ROBINHOOD_PASS"
            account_id := env "MAIN_ACCOUNT"
            ira_account_id := env "IRA_ACCOUNT"
            third_account_id := env "THIRD_ACCOUNT" }
        google_sheets :=
          { credentials_file := (env "CREDENTIALS_FILE").getD "credentials.json"
            spreadsheet_name := env "SPREADSHEET_NAME"
            positions_sheet := (env "POSITIONS_SHEET").getD "Sheet 1"
            option_positions_sheet := (env "OPTION_POSITIONS_SHEET").getD "Option Positions"
            options_orders_sheet := (env "OPTIONS_ORDERS_SHEET").getD "Options Orders"
            account_balances_sheet := (env "ACCOUNT_BALANCES_SHEET").getD "Account Balances"
            all_stock_positions_sheet :=
              (env "ALL_STOCK_POSITIONS_SHEET").getD "All Stock Positions" } }

/-! ### `rate_limit_handler.RateLimitHandler.retry_with_backoff` -/

/-- Outcome of one invocation of the wrapped operation: either a return value
or a raised exception carrying its message. -/
inductive Attempt (α : Type) where
  | ok (v : α)
  | err (msg : String)
deriving DecidableEq

/-- The throttling indicators checked by `retry_with_backoff`
(`rate_limit_handler.py`, lines 27–29). -/
def rate_limit_markers : List String :=
  ["quota", "rate limit", "429", "too many requests", "exceeded"]

/-- `any(x in str(e).lower() for x in [...])` (`rate_limit_handler.py`,
lines 26–29). -/
def isRateLimitError (msg : String) : Bool :=
  rate_limit_markers.any (fun x => strContains (pyLower msg) x)

/-- Observable behaviour of one run of the wrapped operation: the value
returned or exception propagated, the number of times the operation was
invoked, and the list of backoff sleep durations in order. -/
structure RetryResult (α : Type) where
  result : Except String α
  attempts : Nat
  sleeps : List ℚ

/-- The `while retries <= self.max_retries` loop of `retry_with_backoff`
(`rate_limit_handler.py`, lines 22–42).  `att k` is the outcome of the
`k`-th invocation (0-based) and `jit k` the `k`-th jitter factor
`0.8 + random.random() * 0.4`.  The loop is driven by the fuel
`max_retries + 1 - retries`, which counts exactly the remaining admissible
iterations; the fuel-exhausted case is the `raise Exception("Max retries
... exceeded")` after the loop (unreachable for a `Nat` retry ceiling, as in
the Python code for non-negative `max_retries`).  `1.8` is the exact decimal
`9/5`. -/
def retryLoop {α : Type} (maxD : ℚ) (mr : Nat) (att : Nat → Attempt α)
    (jit : Nat → ℚ) : Nat → ℚ → Nat → RetryResult α
  | _k, _d, 0 => ⟨Except.error ("Max retries (" ++ toString mr ++ ") exceeded"), 0, []⟩
  | k, d, fuel + 1 =>
    match att k with
    | Attempt.ok v => ⟨Except.ok v, 1, []⟩
    | Attempt.err msg =>
      if isRateLimitError msg = true ∧ k + 1 ≤ mr then
        let r := retryLoop maxD mr att jit (k + 1) (min (d * (9/5)) maxD) fuel
        ⟨r.result, r.attempts + 1, d * jit k :: r.sleeps⟩
      else ⟨Except.error msg, 1, []⟩

/-- `RateLimitHandler.retry_with_backoff` (`rate_limit_handler.py`,
lines 15–44) applied to one call of the wrapped function, starting from
`retries = 0` and `delay = base_delay`. -/
def retry_with_backoff {α : Type} (base maxD : ℚ) (mr : Nat)
    (att : Nat → Attempt α) (jit : Nat → ℚ) : RetryResult α :=
  retryLoop maxD mr att jit 0 base (mr + 1)

/-! ### `options_orders.calculate_weekly_premium_stats` -/

/-- The hard-coded account-id → account-type lookup table that appears
verbatim in `enrich_option_orders` and `calculate_weekly_premium_stats`
(`options_orders.py`, lines 119–123 and 204), with `.get(key, 'Unknown')`. -/
def account_mapping (account_id : String) : String :=
  if account_id = "5QU52702" then "Standard"
  else if account_id = "519517908" then "IRA"
  else if account_id = "410351639" then "Third"
  else "Unknown"

/-- Day number of the Monday of the week containing day `d`:
`d - weekday(d)` where `weekday(d) = (d + 3) % 7` (Python `%`, here `Int`'s
nonnegative remainder for a positive modulus). -/
def mondayOfDay (d : Int) : Int := d - (d + 3) % 7

/-- The `%Y-%m-%d` week key computed from a UTC timestamp `t` (seconds):
`week_start = dt - timedelta(days=dt.weekday())` formatted as a date,
identified with the Monday's day number (`options_orders.py`,
lines 219–220). -/
def weekKeyOfTime (t : Int) : Int := mondayOfDay (Int.fdiv t 86400)

/-- An option order as consumed by `calculate_weekly_premium_stats`
(`options_orders.py`, lines 206–246): the fields the function reads.
`created_at` is the parsed timestamp; `none` models a missing/empty/
unparseable string (all three are skipped by the code). -/
structure WOrder where
  state : String
  created_at : Option Int
  account_id : String
  total_premium : ℚ
  direction : String

/-- One `{'premium': ..., 'btc_premium': ..., 'count': ...}` record. -/
structure WStats where
  premium : ℚ
  btc_premium : ℚ
  count : Nat
deriving DecidableEq

/-- The zero-initialised stats record (`options_orders.py`, lines 224, 228). -/
def zeroStats : WStats := ⟨0, 0, 0⟩

/-- `'sell' in direction or 'credit' in direction` on the lower-cased
direction (`options_orders.py`, line 235). -/
def isSellDir (direction : String) : Bool :=
  strContains (pyLower direction) "sell" || strContains (pyLower direction) "credit"

/-- `'buy' in direction or 'debit' in direction` on the lower-cased
direction (`options_orders.py`, line 236). -/
def isBuyDir (direction : String) : Bool :=
  strContains (pyLower direction) "buy" || strContains (pyLower direction) "debit"

/-- The update applied to a stats record by one contributing order
(`options_orders.py`, lines 238–246): the count always increments; the
premium is added to `premium` under `is_sell`, else to `btc_premium` under
`is_buy`. -/
def bumpStats (sell buy : Bool) (p : ℚ) (s : WStats) : WStats :=
  if sell then ⟨s.premium + p, s.btc_premium, s.count + 1⟩
  else if buy then ⟨s.premium, s.btc_premium + p, s.count + 1⟩
  else ⟨s.premium, s.btc_premium, s.count + 1⟩

/-- The two dictionaries built by `calculate_weekly_premium_stats`:
`weekly_stats` keyed by week, and `account_stats` keyed by account type then
week. -/
structure AggState where
  weekly : Int → Option WStats
  byAcct : String → Option (Int → Option WStats)

/-- Both dictionaries start empty (`options_orders.py`, lines 198–199). -/
def emptyAgg : AggState := ⟨fun _ => none, fun _ => none⟩

/-- The body of the `for order in orders` loop of
`calculate_weekly_premium_stats` (`options_orders.py`, lines 206–246):
skip non-`filled` states, missing/unparseable dates and dates before the
cutoff; then create (zero-initialised) entries for the week and account
type; skip non-positive premiums; otherwise bump the two entries. -/
def stepOrder (cutoff : Int) (st : AggState) (o : WOrder) : AggState :=
  if pyLower o.state ≠ "filled" then st
  else
    match o.created_at with
    | none => st
    | some t =>
      if t < cutoff then st
      else
        let w := weekKeyOfTime t
        let a := account_mapping o.account_id
        let curW := (st.weekly w).getD zeroStats
        let acctMap := (st.byAcct a).getD (fun _ => none)
        let curA := (acctMap w).getD zeroStats
        if o.total_premium ≤ 0 then
          { weekly := fun k => if k = w then some curW else st.weekly k
            byAcct := fun b =>
              if b = a then some (fun k => if k = w then some curA else acctMap k)
              else st.byAcct b }
        else
          let sell := isSellDir o.direction
          let buy := isBuyDir o.direction
          { weekly := fun k =>
              if k = w then some (bumpStats sell buy o.total_premium curW)
              else st.weekly k
            byAcct := fun b =>
              if b = a then
                some (fun k =>
                  if k = w then some (bumpStats sell buy o.total_premium curA)
                  else acctMap k)
              else st.byAcct b }

/-- `options_orders.calculate_weekly_premium_stats` (`options_orders.py`,
lines 196–262): the cutoff is `now - timedelta(weeks=weeks_back)` and the
orders are folded through the loop body.  The final sorting of the
dictionaries into lists is presentation only and not part of the claims;
the `net_premium` pass is `finalizeStats` below. -/
def calculate_weekly_premium_stats (now : Int) (orders : List WOrder)
    (weeks_back : Nat) : AggState :=
  orders.foldl (stepOrder (now - (weeks_back : Int) * 7 * 86400)) emptyAgg

/-- A stats record extended with the `net_premium` field added by the final
pass (`options_orders.py`, lines 251–256). -/
structure WStatsF where
  premium : ℚ
  btc_premium : ℚ
  net_premium : ℚ
  count : Nat
deriving DecidableEq

/-- `stats['net_premium'] = stats['premium'] - stats['btc_premium']`. -/
def finalizeStats (s : WStats) : WStatsF :=
  ⟨s.premium, s.btc_premium, s.premium - s.btc_premium, s.count⟩

/-- Value of the per-account-type dictionary at `(a, w)`, read through the
same defaults the code uses for absent keys (absent ⇒ zero record). -/
def acctStats (st : AggState) (a : String) (w : Int) : WStats :=
  (((st.byAcct a).getD (fun _ => none)) w).getD zeroStats

/-- Specification-side predicate: an order contributes to the aggregation
exactly when its state is `filled`, its timestamp parsed and is on or after
the cutoff, and its premium is positive. -/
def qualifies (cutoff : Int) (o : WOrder) : Bool :=
  (decide (pyLower o.state = "filled")) &&
  (match o.created_at with
   | some t => decide (¬ t < cutoff)
   | none => false) &&
  decide (0 < o.total_premium)

/-- Specification-side predicate: the order's timestamp falls in the
Monday-aligned week with key `w`. -/
def atWeek (w : Int) (o : WOrder) : Bool :=
  match o.created_at with
  | some t => decide (weekKeyOfTime t = w)
  | none => false

/-- Sum of the premiums of the contributing sell/credit orders of account
type `a` in week `w`. -/
def soldSum (cutoff w : Int) (a : String) (orders : List WOrder) : ℚ :=
  ((orders.filter fun o =>
      qualifies cutoff o && atWeek w o &&
        decide (account_mapping o.account_id = a) && isSellDir o.direction).map
    WOrder.total_premium).sum

/-- Sum of the premiums of the contributing buy/debit (and not sell/credit)
orders of account type `a` in week `w`. -/
def btcSum (cutoff w : Int) (a : String) (orders : List WOrder) : ℚ :=
  ((orders.filter fun o =>
      qualifies cutoff o && atWeek w o &&
        decide (account_mapping o.account_id = a) &&
        !isSellDir o.direction && isBuyDir o.direction).map
    WOrder.total_premium).sum

/-- Number of contributing orders of account type `a` in week `w`. -/
def countContrib (cutoff w : Int) (a : String) (orders : List WOrder) : Nat :=
  (orders.filter fun o =>
      qualifies cutoff o && atWeek w o &&
        decide (account_mapping o.account_id = a)).length

/-- Contribution of a single order to the stats record at `(a, w)`. -/
def orderDelta (cutoff w : Int) (a : String) (o : WOrder) : WStats :=
  if qualifies cutoff o && atWeek w o && decide (account_mapping o.account_id = a) then
    (if isSellDir o.direction then ⟨o.total_premium, 0, 1⟩
     else if isBuyDir o.direction then ⟨0, o.total_premium, 1⟩
     else ⟨0, 0, 1⟩)
  else zeroStats

/-- Pointwise addition of stats records. -/
def addStats (s u : WStats) : WStats :=
  ⟨s.premium + u.premium, s.btc_premium + u.btc_premium, s.count + u.count⟩

/-- Total contribution of a list of orders to the stats record at `(a, w)`. -/
def listDelta (cutoff w : Int) (a : String) (orders : List WOrder) : WStats :=
  orders.foldr (fun o acc => addStats (orderDelta cutoff w a o) acc) zeroStats

/-! ### `options_orders.create_fixed_weekly_table` -/

/-- A row of the table built by `create_fixed_weekly_table`: the title row,
the column-header row, or a weekly data row.  The data row carries the week
key and the three premium amounts; the `"$%.2f"` rendering of the amounts is
presentation only. -/
inductive TRow where
  | title (s : String)
  | header (cols : List String)
  | week (key : Int) (total btc net : ℚ)
deriving DecidableEq

/-- The week lookup inside `create_fixed_weekly_table`
(`options_orders.py`, lines 277–282): if the account type is present, scan
its (week, stats) pairs for the week key, stopping at the first match. -/
def lookupWeek (account_stats : String → Option (List (Int × WStatsF)))
    (account_type : String) (wk : Int) : Option WStatsF :=
  match account_stats account_type with
  | some weeksList => (weeksList.find? fun p => decide (p.1 = wk)).map Prod.snd
  | none => none

/-- `options_orders.create_fixed_weekly_table` (`options_orders.py`,
lines 264–298).  `today` is the current day number; the `i`-th trailing week
key is `today - (today.weekday() + 7*i)` days, i.e. `mondayOfDay today - 7*i`.
A week with no stats found is rendered with `0.0` for all three amounts.
The function returns the table and `start_row + len(table_data) + 2`. -/
def create_fixed_weekly_table (today : Int) (account_type : String)
    (account_stats : String → Option (List (Int × WStatsF)))
    (start_row : Nat) (weeks_to_show : Nat) : List TRow × Nat :=
  let header_rows : List TRow :=
    [TRow.title (account_type ++ " Weekly Premium Summary"),
     TRow.header ["Week", "Total Premium", "BTC Premium", "Net Premium"]]
  let data_rows : List TRow := (List.range weeks_to_show).map fun (i : Nat) =>
    match lookupWeek account_stats account_type (mondayOfDay today - 7 * (i : Int)) with
    | some s => TRow.week (mondayOfDay today - 7 * (i : Int))
        s.premium s.btc_premium s.net_premium
    | none => TRow.week (mondayOfDay today - 7 * (i : Int)) 0 0 0
  let table_data := header_rows ++ data_rows
  (table_data, start_row + table_data.length + 2)

/-! ### `options_orders.enrich_option_orders` -/

/-- A Python value as fed to `safe_float`: `None`, a number, or a string.
For a string, `parsed` is the result of
`float(value.replace('$', '').replace(',', '').strip())` — `some q` when the
cleaned string parses as a number `q`, `none` when `float` raises. -/
inductive PyVal where
  | none
  | num (q : ℚ)
  | str (parsed : Option ℚ)

/-- `options_orders.safe_float` (`options_orders.py`, lines 88–99). -/
def safe_float (v : PyVal) (default : ℚ) : ℚ :=
  match v with
  | PyVal.none => default
  | PyVal.num q => q
  | PyVal.str parsed => parsed.getD default

/-- One order leg as read by `enrich_option_orders` and `extract_quantity`. -/
structure OLeg where
  quantity : PyVal
  option_type : Option String
  strike_price : PyVal
  expiration_date : Option String

/-- An option order as read by `enrich_option_orders`
(`options_orders.py`, lines 125–143).  `legs = none` models both a missing
`legs` key and a non-list value. -/
structure OptOrder where
  account_number : Option String
  chain_symbol : Option String
  processed_premium : PyVal
  premium : PyVal
  quantity : PyVal
  direction : Option String
  legs : Option (List OLeg)

/-- `options_orders.extract_quantity` (`options_orders.py`, lines 101–113):
sum the positive leg quantities; if that sum is zero fall back to the
order-level quantity. -/
def extract_quantity (o : OptOrder) : ℚ :=
  let from_legs :=
    match o.legs with
    | some legs =>
        legs.foldl (fun acc leg =>
          let leg_qty := safe_float leg.quantity 0
          if leg_qty > 0 then acc + leg_qty else acc) 0
    | none => 0
  if from_legs = 0 then safe_float o.quantity 0 else from_legs

/-- `order.get('direction', '').lower()` rendering
(`options_orders.py`, lines 143–149). -/
def direction_formatted (d : Option String) : String :=
  let dl := pyLower (d.getD "")
  if dl = "debit" then "Buy (Debit)"
  else if dl = "credit" then "Sell (Credit)"
  else if dl ≠ "" then pyCapitalize dl
  else "Unknown"

/-- The enriched fields computed by `enrich_option_orders` that the claims
concern.  The date formatting and the leg-shape strategy/strikes/expirations
strings (presentation only) are not modelled. -/
structure EnrichedOrder where
  account_type : String
  symbol : String
  total_premium : ℚ
  quantity : ℚ
  premium_per_contract : ℚ
  direction_label : String

/-- The per-order body of `enrich_option_orders` (`options_orders.py`,
lines 125–189).  `premium` is the Python
`safe_float(processed_premium) or safe_float(premium)`: the second operand
is used when the first is falsy, i.e. `0.0`.  `premium_per_contract` is
`premium / quantity if quantity > 0 else 0`. -/
def enrichOrder (o : OptOrder) : EnrichedOrder :=
  let account_type := account_mapping (o.account_number.getD "Unknown")
  let symbol := o.chain_symbol.getD "Unknown"
  let p1 := safe_float o.processed_premium 0
  let premium := if p1 ≠ 0 then p1 else safe_float o.premium 0
  let quantity := extract_quantity o
  { account_type := account_type
    symbol := symbol
    total_premium := premium
    quantity := quantity
    premium_per_contract := if quantity > 0 then premium / quantity else 0
    direction_label := direction_formatted o.direction }

/-- `options_orders.enrich_option_orders` (`options_orders.py`,
lines 115–194): every order is enriched and appended; in this pure model the
per-order `except` fallback (append the order unmodified) is unreachable, so
the loop is a map. -/
def enrich_option_orders (orders : List OptOrder) : List EnrichedOrder :=
  orders.map enrichOrder

/-! ### Claim theorems: strategy classifier -/

/-- Claim C1: for every option position with option type CALL whose underlying
symbol has recorded stock holdings, the classifier returns "Covered Call (CC)"
whenever the account's collateral-pledged shares for that symbol are at least
`contracts × 100`; otherwise, if the account's total shares held are at least
`contracts × 100`, it returns "Covered Call (CC) - Holdings"; otherwise it
falls through to the default label "CALL Position". -/
theorem claim_c1_covered_call (position : OptPosition)
    (account_data : String → Option AcctInfo)
    (stock_collateral : String → Option (String → Option StockShares))
    (per_acct : String → Option StockShares)
    (hcall : pyUpper position.option_type = "CALL")
    (hsym : stock_collateral position.symbol = some per_acct) :
    (resolved_collateral per_acct position.account_number ≥ position.quantity * 100 →
      simplified_strategy_detection position account_data stock_collateral =
        "Covered Call (CC)") ∧
    (resolved_collateral per_acct position.account_number < position.quantity * 100 →
      resolved_total per_acct position.account_number ≥ position.quantity * 100 →
      simplified_strategy_detection position account_data stock_collateral =
        "Covered Call (CC) - Holdings") ∧
    (resolved_collateral per_acct position.account_number < position.quantity * 100 →
      resolved_total per_acct position.account_number < position.quantity * 100 →
      simplified_strategy_detection position account_data stock_collateral =
        "CALL Position") := by
  refine ⟨fun h1 => ?_, fun h1 h2 => ?_, fun h1 h2 => ?_⟩
  · simp [simplified_strategy_detection, hcall, hsym, h1]
  · have h1n : ¬ resolved_collateral per_acct position.account_number ≥
        position.quantity * 100 := not_le.mpr h1
    simp [simplified_strategy_detection, hcall, hsym, h1n, h2]
  · have h1n : ¬ resolved_collateral per_acct position.account_number ≥
        position.quantity * 100 := not_le.mpr h1
    have h2n : ¬ resolved_total per_acct position.account_number ≥
        position.quantity * 100 := not_le.mpr h2
    simp [simplified_strategy_detection, hcall, hsym, h1n, h2n]

/-- Claim C1 witness: a CALL with 100 collateral-pledged shares against one
contract is classified "Covered Call (CC)". -/
theorem claim_c1_covered_call_witness :
    simplified_strategy_detection ⟨"AAPL", "call", 200, "A1", 1⟩ (fun _ => Option.none)
      (fun s => if s = "AAPL" then
        some (fun a => if a = "A1" then some ⟨100, 100⟩ else Option.none)
        else Option.none) = "Covered Call (CC)" := by
  have h := claim_c1_covered_call ⟨"AAPL", "call", 200, "A1", 1⟩ (fun _ => Option.none)
      (fun s => if s = "AAPL" then
        some (fun a => if a = "A1" then some ⟨100, 100⟩ else Option.none)
        else Option.none)
      (fun a => if a = "A1" then some ⟨100, 100⟩ else Option.none)
      (by decide) rfl
  exact h.1 (by norm_num [resolved_collateral])

/-- Claim C2: for every option position with option type PUT, the classifier
computes required cash `strike × contracts × 100` and returns
"Cash-Secured Put (CSP)" exactly when the account's cash reserved for options
collateral is at least 90% of that; strictly below the threshold it returns
the default label "PUT Position". -/
theorem claim_c2_cash_secured_put (position : OptPosition)
    (account_data : String → Option AcctInfo)
    (stock_collateral : String → Option (String → Option StockShares))
    (hput : pyUpper position.option_type = "PUT") :
    (simplified_strategy_detection position account_data stock_collateral =
        "Cash-Secured Put (CSP)" ↔
      resolved_cash account_data position.account_number ≥
        position.strike_price * position.quantity * 100 * (9/10)) ∧
    (resolved_cash account_data position.account_number <
        position.strike_price * position.quantity * 100 * (9/10) →
      simplified_strategy_detection position account_data stock_collateral =
        "PUT Position") := by
  have hne : pyUpper position.option_type ≠ "CALL" := by rw [hput]; decide
  constructor
  · constructor
    · intro hres
      by_contra hlt
      have hn : ¬ resolved_cash account_data position.account_number ≥
          position.strike_price * position.quantity * 100 * (9/10) := hlt
      simp [simplified_strategy_detection, hput, hne, hn] at hres
    · intro hge
      simp [simplified_strategy_detection, hput, hne, hge]
  · intro hlt
    have hn : ¬ resolved_cash account_data position.account_number ≥
        position.strike_price * position.quantity * 100 * (9/10) := not_le.mpr hlt
    simp [simplified_strategy_detection, hput, hne, hn]

/-- Claim C2 witness: with strike 10 and one contract (required cash 1000),
reserved cash 900 yields "Cash-Secured Put (CSP)" and reserved cash 890
(0.89 × required) yields the default label. -/
theorem claim_c2_cash_secured_put_witness :
    simplified_strategy_detection ⟨"AAPL", "put", 10, "A1", 1⟩
      (fun a => if a = "A1" then some ⟨900, "Standard"⟩ else Option.none)
      (fun _ => Option.none) = "Cash-Secured Put (CSP)" ∧
    simplified_strategy_detection ⟨"AAPL", "put", 10, "A1", 1⟩
      (fun a => if a = "A1" then some ⟨890, "Standard"⟩ else Option.none)
      (fun _ => Option.none) = "PUT Position" := by
  constructor
  · exact ((claim_c2_cash_secured_put ⟨"AAPL", "put", 10, "A1", 1⟩
      (fun a => if a = "A1" then some ⟨900, "Standard"⟩ else Option.none)
      (fun _ => Option.none) (by decide)).1).mpr (by norm_num [resolved_cash])
  · exact (claim_c2_cash_secured_put ⟨"AAPL", "put", 10, "A1", 1⟩
      (fun a => if a = "A1" then some ⟨890, "Standard"⟩ else Option.none)
      (fun _ => Option.none) (by decide)).2 (by norm_num [resolved_cash])

/-- Claim C9: for every option position with quantity 0: a PUT whose account
has nonnegative recorded cash-for-options (0 when the account is absent) is
classified "Cash-Secured Put (CSP)", since the required cash is 0; and a CALL
whose symbol appears in `stock_collateral` is classified "Covered Call (CC)"
whenever the resolved collateral shares (0 when the account is absent) are
nonnegative, since the threshold `quantity × 100` is 0. -/
theorem claim_c9_zero_quantity (position : OptPosition)
    (account_data : String → Option AcctInfo)
    (stock_collateral : String → Option (String → Option StockShares))
    (hq : position.quantity = 0) :
    (pyUpper position.option_type = "PUT" →
      0 ≤ resolved_cash account_data position.account_number →
      simplified_strategy_detection position account_data stock_collateral =
        "Cash-Secured Put (CSP)") ∧
    (∀ per_acct : String → Option StockShares,
      pyUpper position.option_type = "CALL" →
      stock_collateral position.symbol = some per_acct →
      0 ≤ resolved_collateral per_acct position.account_number →
      simplified_strategy_detection position account_data stock_collateral =
        "Covered Call (CC)") := by
  constructor
  · intro hput hcash
    have hne : pyUpper position.option_type ≠ "CALL" := by rw [hput]; decide
    have hge : resolved_cash account_data position.account_number ≥
        position.strike_price * position.quantity * 100 * (9/10) := by
      rw [hq]; simpa using hcash
    simp [simplified_strategy_detection, hput, hne, hge]
  · intro per_acct hcall hsym hcoll
    have hge : resolved_collateral per_acct position.account_number ≥
        position.quantity * 100 := by
      rw [hq]; simpa using hcoll
    simp [simplified_strategy_detection, hcall, hsym, hge]

/-- Claim C9 witness: a zero-quantity PUT with the account absent from the
account data is classified "Cash-Secured Put (CSP)", and a zero-quantity CALL
whose symbol is recorded (under a different account) is classified
"Covered Call (CC)". -/
theorem claim_c9_zero_quantity_witness :
    simplified_strategy_detection ⟨"AAPL", "put", 50, "A1", 0⟩ (fun _ => Option.none)
      (fun _ => Option.none) = "Cash-Secured Put (CSP)" ∧
    simplified_strategy_detection ⟨"AAPL", "call", 50, "A1", 0⟩ (fun _ => Option.none)
      (fun s => if s = "AAPL" then
        some (fun a => if a = "B2" then some ⟨10, 10⟩ else Option.none)
        else Option.none) = "Covered Call (CC)" := by
  constructor
  · exact (claim_c9_zero_quantity ⟨"AAPL", "put", 50, "A1", 0⟩ (fun _ => Option.none)
      (fun _ => Option.none) rfl).1 (by decide) (by norm_num [resolved_cash])
  · exact (claim_c9_zero_quantity ⟨"AAPL", "call", 50, "A1", 0⟩ (fun _ => Option.none)
      (fun s => if s = "AAPL" then
        some (fun a => if a = "B2" then some ⟨10, 10⟩ else Option.none)
        else Option.none) rfl).2
      (fun a => if a = "B2" then some ⟨10, 10⟩ else Option.none)
      (by decide) rfl (by simp [resolved_collateral])

/-! ### Claim theorem: configuration validation -/

/-- Claim C8: `load_config` fails with a validation error naming the missing
variables if and only if at least one of ROBINHOOD_USER, ROBINHOOD_PASS,
MAIN_ACCOUNT, SPREADSHEET_NAME is missing; the embedded function is pure, so
the failure involves no network activity.  When all four are present it
returns the assembled configuration. -/
theorem claim_c8_config_validation (env : String → Option String) :
    ((∃ msg, load_config env = Except.error msg) ↔
      ∃ v ∈ required_vars, envMissing env v = true) ∧
    (∀ msg, load_config env = Except.error msg →
      msg = "Missing required environment variables: " ++
        String.intercalate ", " (required_vars.filter (envMissing env))) ∧
    ((∀ v ∈ required_vars, envMissing env v = false) →
      load_config env = Except.ok
        ⟨⟨env "ROBINHOOD_USER", env "ROBINHOOD_PASS", env "MAIN_ACCOUNT",
          env "IRA_ACCOUNT", env "THIRD_ACCOUNT"⟩,
         ⟨(env "CREDENTIALS_FILE").getD "credentials.json",
          env "SPREADSHEET_NAME",
          (env "POSITIONS_SHEET").getD "Sheet 1",
          (env "OPTION_POSITIONS_SHEET").getD "Option Positions",
          (env "OPTIONS_ORDERS_SHEET").getD "Options Orders",
          (env "ACCOUNT_BALANCES_SHEET").getD "Account Balances",
          (env "ALL_STOCK_POSITIONS_SHEET").getD "All Stock Positions"⟩⟩) := by
  by_cases h : required_vars.filter (envMissing env) = []
  · have hok : load_config env = Except.ok
        ⟨⟨env "ROBINHOOD_USER", env "ROBINHOOD_PASS", env "MAIN_ACCOUNT",
          env "IRA_ACCOUNT", env "THIRD_ACCOUNT"⟩,
         ⟨(env "CREDENTIALS_FILE").getD "credentials.json",
          env "SPREADSHEET_NAME",
          (env "POSITIONS_SHEET").getD "Sheet 1",
          (env "OPTION_POSITIONS_SHEET").getD "Option Positions",
          (env "OPTIONS_ORDERS_SHEET").getD "Options Orders",
          (env "ACCOUNT_BALANCES_SHEET").getD "Account Balances",
          (env "ALL_STOCK_POSITIONS_SHEET").getD "All Stock Positions"⟩⟩ := by
      simp only [load_config]
      rw [if_neg (not_not_intro h)]
    have hforall := List.filter_eq_nil_iff.mp h
    refine ⟨⟨fun ⟨msg, hmsg⟩ => ?_, fun ⟨v, hv, hmiss⟩ => ?_⟩, fun msg hmsg => ?_, fun _ => hok⟩
    · rw [hok] at hmsg; exact Except.noConfusion hmsg
    · exact absurd hmiss (by simpa using hforall v hv)
    · rw [hok] at hmsg; exact Except.noConfusion hmsg
  · have herr : load_config env = Except.error
        ("Missing required environment variables: " ++
          String.intercalate ", " (required_vars.filter (envMissing env))) := by
      simp only [load_config]
      rw [if_pos h]
    refine ⟨⟨fun _ => ?_, fun _ => ⟨_, herr⟩⟩, fun msg hmsg => ?_, fun hall => ?_⟩
    · obtain ⟨v, hv⟩ := List.exists_mem_of_ne_nil _ h
      exact ⟨v, (List.mem_filter.mp hv).1, (List.mem_filter.mp hv).2⟩
    · rw [herr] at hmsg
      exact (Except.error.inj hmsg).symm
    · exact absurd (List.filter_eq_nil_iff.mpr
        (fun v hv => by simp [hall v hv])) h

/-- Claim C8 witness: with all four required variables set, `load_config`
returns the assembled configuration; with only three set it fails with a
message naming the missing one. -/
theorem claim_c8_config_validation_witness :
    load_config (fun v => if v = "SPREADSHEET_NAME" then Option.none else some "x") =
      Except.error "Missing required environment variables: SPREADSHEET_NAME" ∧
    load_config (fun _ => some "x") = Except.ok
      ⟨⟨some "x", some "x", some "x", some "x", some "x"⟩,
       ⟨"x", some "x", "x", "x", "x", "x", "x"⟩⟩ := by
  constructor
  · obtain ⟨msg, hmsg⟩ := ((claim_c8_config_validation
        (fun v => if v = "SPREADSHEET_NAME" then Option.none else some "x")).1).mpr
      ⟨"SPREADSHEET_NAME", by decide, by decide⟩
    have hname := (claim_c8_config_validation
        (fun v => if v = "SPREADSHEET_NAME" then Option.none else some "x")).2.1 msg hmsg
    rw [hmsg, hname]
    rfl
  · exact (claim_c8_config_validation (fun _ => some "x")).2.2 (by decide)

/-! ### Claim theorems: retry wrapper -/

/-- One-step unfolding of the retry loop with positive fuel. -/
theorem retryLoop_succ {α : Type} (maxD : ℚ) (mr : Nat) (att : Nat → Attempt α)
    (jit : Nat → ℚ) (k : Nat) (d : ℚ) (fuel : Nat) :
    retryLoop maxD mr att jit k d (fuel + 1) =
      match att k with
      | Attempt.ok v => ⟨Except.ok v, 1, []⟩
      | Attempt.err msg =>
        if isRateLimitError msg = true ∧ k + 1 ≤ mr then
          let r := retryLoop maxD mr att jit (k + 1) (min (d * (9/5)) maxD) fuel
          ⟨r.result, r.attempts + 1, d * jit k :: r.sleeps⟩
        else ⟨Except.error msg, 1, []⟩ := rfl

/-- The loop makes at most `fuel` invocations of the operation. -/
theorem retryLoop_attempts_le {α : Type} (maxD : ℚ) (mr : Nat) (att : Nat → Attempt α)
    (jit : Nat → ℚ) :
    ∀ (fuel k : Nat) (d : ℚ), (retryLoop maxD mr att jit k d fuel).attempts ≤ fuel := by
  intro fuel
  induction fuel with
  | zero => intro k d; simp [retryLoop]
  | succ n ih =>
    intro k d
    rw [retryLoop_succ]
    cases att k with
    | ok v => simp
    | err msg =>
      by_cases hc : isRateLimitError msg = true ∧ k + 1 ≤ mr
      · simpa [hc] using Nat.succ_le_succ (ih (k + 1) (min (d * (9/5)) maxD))
      · simp [hc]

/-- On an operation that always fails with a rate-limited message, a run of the
loop whose fuel matches the remaining retry budget makes exactly `fuel`
attempts and re-raises the original failure. -/
theorem retryLoop_always_rate_limited {α : Type} (maxD : ℚ) (mr : Nat)
    (jit : Nat → ℚ) (msg : String) (hrl : isRateLimitError msg = true) :
    ∀ (fuel k : Nat) (d : ℚ), fuel + k = mr →
      (retryLoop maxD mr (fun _ => (Attempt.err msg : Attempt α)) jit k d (fuel + 1)).result =
          Except.error msg ∧
      (retryLoop maxD mr (fun _ => (Attempt.err msg : Attempt α)) jit k d (fuel + 1)).attempts =
          fuel + 1 := by
  intro fuel
  induction fuel with
  | zero =>
    intro k d hk
    have hk2 : ¬ k + 1 ≤ mr := by omega
    rw [retryLoop_succ]
    simp [hk2]
  | succ n ih =>
    intro k d hk
    have hk2 : k + 1 ≤ mr := by omega
    obtain ⟨h1, h2⟩ := ih (k + 1) (min (d * (9/5)) maxD) (by omega)
    rw [retryLoop_succ]
    simp only [hrl, hk2, and_self, if_true, true_and]
    exact ⟨h1, by rw [h2]⟩

/-- Claim C3: for every wrapped operation the retry wrapper invokes the
operation at most `max_retries + 1` times in total; and on an operation that
always fails with the message "rate limit", with the default ceiling 3 the
wrapper makes exactly 4 attempts and then propagates the failure. -/
theorem claim_c3_attempt_bound :
    (∀ (α : Type) (base maxD : ℚ) (mr : Nat) (att : Nat → Attempt α) (jit : Nat → ℚ),
      (retry_with_backoff base maxD mr att jit).attempts ≤ mr + 1) ∧
    ((retry_with_backoff (1/2) 15 3 (fun _ => (Attempt.err "rate limit" : Attempt Unit))
        (fun _ => 1)).attempts = 4 ∧
     (retry_with_backoff (1/2) 15 3 (fun _ => (Attempt.err "rate limit" : Attempt Unit))
        (fun _ => 1)).result = Except.error "rate limit") := by
  refine ⟨fun α base maxD mr att jit => retryLoop_attempts_le maxD mr att jit (mr + 1) 0 base,
    ?_, ?_⟩
  · exact (retryLoop_always_rate_limited 15 3 (fun _ => 1) "rate limit" (by decide)
      3 0 (1/2) (by omega)).2
  · exact (retryLoop_always_rate_limited 15 3 (fun _ => 1) "rate limit" (by decide)
      3 0 (1/2) (by omega)).1

/-- Claim C4: a failure whose message matches none of the throttling markers
is propagated after the first attempt, with no retry and no backoff sleep;
and when the ceiling is exceeded on an always-rate-limited failure, the
failure propagated is the original one. -/
theorem claim_c4_error_propagation (α : Type) (base maxD : ℚ) (mr : Nat)
    (att : Nat → Attempt α) (jit : Nat → ℚ) (msg : String) :
    (att 0 = Attempt.err msg → isRateLimitError msg = false →
      retry_with_backoff base maxD mr att jit =
        ⟨Except.error msg, 1, []⟩) ∧
    ((∀ k, att k = Attempt.err msg) → isRateLimitError msg = true →
      (retry_with_backoff base maxD mr att jit).result = Except.error msg ∧
      (retry_with_backoff base maxD mr att jit).attempts = mr + 1) := by
  constructor
  · intro h0 hnot
    unfold retry_with_backoff
    rw [retryLoop_succ, h0]
    simp [hnot]
  · intro hall hrl
    have hatt : att = fun _ => (Attempt.err msg : Attempt α) := funext hall
    unfold retry_with_backoff
    rw [hatt]
    exact retryLoop_always_rate_limited maxD mr jit msg hrl mr 0 base (by omega)

/-- Claim C4 witness: a failure with message "connection refused" is
propagated immediately with a single attempt and no sleeps, and an operation
always failing with "quota" has its own failure propagated after
`max_retries + 1 = 4` attempts. -/
theorem claim_c4_error_propagation_witness :
    retry_with_backoff (1/2) 15 3 (fun _ => (Attempt.err "connection refused" : Attempt Unit))
      (fun _ => 1) = ⟨Except.error "connection refused", 1, []⟩ ∧
    (retry_with_backoff (1/2) 15 3 (fun _ => (Attempt.err "quota" : Attempt Unit))
      (fun _ => 1)).result = Except.error "quota" := by
  constructor
  · exact (claim_c4_error_propagation Unit (1/2) 15 3
      (fun _ => Attempt.err "connection refused") (fun _ => 1) "connection refused").1
      rfl (by decide)
  · exact ((claim_c4_error_propagation Unit (1/2) 15 3
      (fun _ => Attempt.err "quota") (fun _ => 1) "quota").2
      (fun _ => rfl) (by decide)).1

/-- Claim C5: with the default parameters (base delay 0.5, growth factor 1.8
capped at 15), an operation that fails twice with messages containing "429"
and then succeeds makes the wrapper return the success value after 3
attempts; the two backoff sleeps are `0.5·u₀` and `min(0.5·1.8, 15)·u₁ =
0.9·u₁`, and for every pair of jitter draws in `[0.8, 1.2)` they are
non-decreasing. -/
theorem claim_c5_backoff_delays (u0 u1 : ℚ) (v : Nat) (m0 m1 : String)
    (hu0l : 4/5 ≤ u0) (hu0r : u0 < 6/5) (hu1l : 4/5 ≤ u1) (hu1r : u1 < 6/5)
    (h0 : strContains (pyLower m0) "429" = true)
    (h1 : strContains (pyLower m1) "429" = true) :
    (retry_with_backoff (1/2) 15 3
        (fun k => if k = 0 then Attempt.err m0 else if k = 1 then Attempt.err m1
          else Attempt.ok v)
        (fun k => if k = 0 then u0 else u1)).result = Except.ok v ∧
    (retry_with_backoff (1/2) 15 3
        (fun k => if k = 0 then Attempt.err m0 else if k = 1 then Attempt.err m1
          else Attempt.ok v)
        (fun k => if k = 0 then u0 else u1)).attempts = 3 ∧
    (retry_with_backoff (1/2) 15 3
        (fun k => if k = 0 then Attempt.err m0 else if k = 1 then Attempt.err m1
          else Attempt.ok v)
        (fun k => if k = 0 then u0 else u1)).sleeps = [1/2 * u0, 9/10 * u1] ∧
    1/2 * u0 ≤ 9/10 * u1 := by
  have hrl0 : isRateLimitError m0 = true := by
    unfold isRateLimitError rate_limit_markers
    simp only [List.any_cons, List.any_nil, Bool.or_eq_true]
    exact Or.inr (Or.inr (Or.inl h0))
  have hrl1 : isRateLimitError m1 = true := by
    unfold isRateLimitError rate_limit_markers
    simp only [List.any_cons, List.any_nil, Bool.or_eq_true]
    exact Or.inr (Or.inr (Or.inl h1))
  have hmin : min ((1 : ℚ)/2 * (9/5)) 15 = 9/10 := by norm_num
  have e2 : ∀ d : ℚ, retryLoop 15 3
      (fun k => if k = 0 then Attempt.err m0 else if k = 1 then Attempt.err m1
        else Attempt.ok v)
      (fun k => if k = 0 then u0 else u1) 2 d 2 = ⟨Except.ok v, 1, []⟩ := by
    intro d
    rw [retryLoop_succ]
    norm_num
  have e1 : ∀ d : ℚ, retryLoop 15 3
      (fun k => if k = 0 then Attempt.err m0 else if k = 1 then Attempt.err m1
        else Attempt.ok v)
      (fun k => if k = 0 then u0 else u1) 1 d 3 = ⟨Except.ok v, 2, [d * u1]⟩ := by
    intro d
    rw [retryLoop_succ]
    norm_num [hrl1, e2]
  have hrun : retry_with_backoff (1/2) 15 3
      (fun k => if k = 0 then Attempt.err m0 else if k = 1 then Attempt.err m1
        else Attempt.ok v)
      (fun k => if k = 0 then u0 else u1) =
      ⟨Except.ok v, 3, [1/2 * u0, 9/10 * u1]⟩ := by
    unfold retry_with_backoff
    rw [retryLoop_succ]
    norm_num [hrl0, e1, hmin]
  refine ⟨by rw [hrun], by rw [hrun], by rw [hrun], ?_⟩
  have ha : (1 : ℚ)/2 * u0 < 3/5 := by linarith
  have hb : (18 : ℚ)/25 ≤ 9/10 * u1 := by linarith
  linarith

/-- Claim C5 witness: with both jitter draws equal to 1 and messages "429",
the wrapper returns the success value 7 after 3 attempts with sleeps
`[0.5, 0.9]`, which are non-decreasing. -/
theorem claim_c5_backoff_delays_witness :
    (retry_with_backoff (1/2) 15 3
        (fun k => if k = 0 then Attempt.err "429" else if k = 1 then Attempt.err "429"
          else Attempt.ok 7)
        (fun k => if k = 0 then 1 else 1)).result = Except.ok 7 ∧
    (retry_with_backoff (1/2) 15 3
        (fun k => if k = 0 then Attempt.err "429" else if k = 1 then Attempt.err "429"
          else Attempt.ok 7)
        (fun k => if k = 0 then 1 else 1)).sleeps = [1/2 * 1, 9/10 * 1] := by
  have h := claim_c5_backoff_delays 1 1 7 "429" "429"
    (by norm_num) (by norm_num) (by norm_num) (by norm_num) (by decide) (by decide)
  exact ⟨h.1, h.2.2.1⟩

/-! ### Claim theorems: weekly premium aggregation -/

/-- Adding the zero record on the right is the identity. -/
theorem addStats_zero (s : WStats) : addStats s zeroStats = s := by
  simp [addStats, zeroStats]

/-- Adding the zero record on the left is the identity. -/
theorem zero_addStats (s : WStats) : addStats zeroStats s = s := by
  simp [addStats, zeroStats]

/-- Pointwise addition of stats records is associative. -/
theorem addStats_assoc (x y z : WStats) :
    addStats (addStats x y) z = addStats x (addStats y z) := by
  simp [addStats, add_assoc]

/-- The per-order bump is addition of a single-order record. -/
theorem bumpStats_eq_add (sell buy : Bool) (p : ℚ) (s : WStats) :
    bumpStats sell buy p s = addStats s
      (if sell then ⟨p, 0, 1⟩ else if buy then ⟨0, p, 1⟩ else ⟨0, 0, 1⟩) := by
  cases sell <;> cases buy <;> simp [bumpStats, addStats]

/-- One loop iteration changes the per-account record at `(a, w)` by exactly
the order's contribution. -/
theorem acctStats_step (cutoff : Int) (st : AggState) (o : WOrder) (a : String) (w : Int) :
    acctStats (stepOrder cutoff st o) a w =
      addStats (acctStats st a w) (orderDelta cutoff w a o) := by
  by_cases hst : pyLower o.state = "filled"
  case neg =>
    simp [stepOrder, orderDelta, qualifies, hst, addStats_zero]
  case pos =>
    cases hca : o.created_at with
    | none =>
      simp [stepOrder, orderDelta, qualifies, hst, hca, addStats_zero]
    | some t =>
      by_cases hcut : t < cutoff
      · simp [stepOrder, orderDelta, qualifies, hst, hca, hcut, addStats_zero]
      · by_cases ha : account_mapping o.account_id = a
        · subst ha
          by_cases hw : weekKeyOfTime t = w
          · subst hw
            by_cases hp : o.total_premium ≤ 0
            · have hnp : ¬ (0 < o.total_premium) := not_lt.mpr hp
              simp [stepOrder, orderDelta, qualifies, atWeek, acctStats, hst, hca, hcut,
                hp, hnp, addStats_zero]
            · have hpos : 0 < o.total_premium := lt_of_not_le hp
              simp [stepOrder, orderDelta, qualifies, atWeek, acctStats, hst, hca, hcut,
                hp, hpos, bumpStats_eq_add]
          · have hw2 : ¬ (w = weekKeyOfTime t) := fun hh => hw hh.symm
            by_cases hp : o.total_premium ≤ 0
            · simp [stepOrder, orderDelta, qualifies, atWeek, acctStats, hst, hca, hcut,
                hp, hw, hw2, addStats_zero]
            · simp [stepOrder, orderDelta, qualifies, atWeek, acctStats, hst, hca, hcut,
                hp, hw, hw2, addStats_zero]
        · have ha2 : ¬ (a = account_mapping o.account_id) := fun hh => ha hh.symm
          by_cases hp : o.total_premium ≤ 0
          · simp [stepOrder, orderDelta, qualifies, atWeek, acctStats, hst, hca, hcut,
              hp, ha, ha2, addStats_zero]
          · simp [stepOrder, orderDelta, qualifies, atWeek, acctStats, hst, hca, hcut,
              hp, ha, ha2, addStats_zero]

/-- `listDelta` unfolds on cons. -/
theorem listDelta_cons (cutoff w : Int) (a : String) (o : WOrder) (os : List WOrder) :
    listDelta cutoff w a (o :: os) =
      addStats (orderDelta cutoff w a o) (listDelta cutoff w a os) := rfl

/-- Folding the loop body over a list of orders adds the list's total
contribution to the record at `(a, w)`. -/
theorem acctStats_foldl (cutoff : Int) (a : String) (w : Int) :
    ∀ (orders : List WOrder) (st : AggState),
      acctStats (orders.foldl (stepOrder cutoff) st) a w =
        addStats (acctStats st a w) (listDelta cutoff w a orders) := by
  intro orders
  induction orders with
  | nil => intro st; simp [listDelta, addStats_zero]
  | cons o os ih =>
    intro st
    rw [List.foldl_cons, ih, acctStats_step, addStats_assoc, ← listDelta_cons]

/-- The total contribution of a list of orders at `(a, w)` is the triple of
filtered sums the specification describes. -/
theorem listDelta_eq (cutoff w : Int) (a : String) (orders : List WOrder) :
    listDelta cutoff w a orders =
      ⟨soldSum cutoff w a orders, btcSum cutoff w a orders,
       countContrib cutoff w a orders⟩ := by
  induction orders with
  | nil => rfl
  | cons o os ih =>
    rw [listDelta_cons, ih]
    unfold orderDelta soldSum btcSum countContrib
    by_cases hq : (qualifies cutoff o && atWeek w o &&
        decide (account_mapping o.account_id = a)) = true
    · rw [if_pos hq]
      by_cases hsell : isSellDir o.direction = true
      · simp [List.filter_cons, hq, hsell, addStats, soldSum, btcSum, countContrib,
          Nat.add_comm]
      · by_cases hbuy : isBuyDir o.direction = true
        · simp [List.filter_cons, hq, hsell, hbuy, addStats, soldSum, btcSum,
            countContrib, Nat.add_comm]
        · simp [List.filter_cons, hq, hsell, hbuy, addStats, soldSum, btcSum,
            countContrib, Nat.add_comm]
    · rw [if_neg hq]
      simp only [Bool.not_eq_true] at hq
      simp [List.filter_cons, hq, addStats, zeroStats, soldSum, btcSum, countContrib]

/-- Claim C6: for every trailing-window size, every Monday-aligned week key
and every account type, the aggregation computed by
`calculate_weekly_premium_stats` has sold premium equal to the sum of the
premiums of the contributing sell/credit orders, bought-back premium equal to
the sum for buy/debit orders, count equal to the number of contributing
orders, and net premium equal to sold minus bought-back — where an order
contributes only if its state is "filled", its timestamp parses and lies on
or after the cutoff `now − weeks_back` weeks, and its premium is positive. -/
theorem claim_c6_weekly_premium (now : Int) (weeks_back : Nat) (orders : List WOrder)
    (w : Int) (a : String) :
    acctStats (calculate_weekly_premium_stats now orders weeks_back) a w =
      ⟨soldSum (now - (weeks_back : Int) * 7 * 86400) w a orders,
       btcSum (now - (weeks_back : Int) * 7 * 86400) w a orders,
       countContrib (now - (weeks_back : Int) * 7 * 86400) w a orders⟩ ∧
    (finalizeStats
        (acctStats (calculate_weekly_premium_stats now orders weeks_back) a w)).net_premium =
      soldSum (now - (weeks_back : Int) * 7 * 86400) w a orders -
        btcSum (now - (weeks_back : Int) * 7 * 86400) w a orders := by
  have h : acctStats (calculate_weekly_premium_stats now orders weeks_back) a w =
      (⟨soldSum (now - (weeks_back : Int) * 7 * 86400) w a orders,
        btcSum (now - (weeks_back : Int) * 7 * 86400) w a orders,
        countContrib (now - (weeks_back : Int) * 7 * 86400) w a orders⟩ : WStats) := by
    unfold calculate_weekly_premium_stats
    rw [acctStats_foldl, listDelta_eq]
    rw [show acctStats emptyAgg a w = zeroStats from rfl, zero_addStats]
  exact ⟨h, by rw [h]; rfl⟩

/-! ### Claim theorems: fixed weekly table and order enrichment -/

/-- Indexing two rows past the head of a list selects from the tail. -/
theorem two_cons_getElem_add_two {γ : Type} (x y : γ) (l : List γ) (i : Nat) :
    (x :: y :: l)[i + 2]? = l[i]? := by
  show (x :: y :: l)[(i + 1) + 1]? = l[i]?
  rw [List.getElem?_cons_succ, List.getElem?_cons_succ]

/-- Claim C7: for every account type and stats mapping,
`create_fixed_weekly_table` returns a 2-row header plus exactly
`weeks_to_show` weekly data rows, one per trailing Monday-aligned week
(`mondayOfDay today - 7·i` for `i = 0, …, weeks_to_show − 1`); a week with no
recorded stats still appears, zero-filled, and the returned next-row pointer
is `start_row + (weeks_to_show + 2) + 2`, so the rows occupy a fixed,
predictable range. -/
theorem claim_c7_fixed_table (today : Int) (account_type : String)
    (account_stats : String → Option (List (Int × WStatsF)))
    (start_row weeks_to_show : Nat) :
    (create_fixed_weekly_table today account_type account_stats start_row
        weeks_to_show).1.length = weeks_to_show + 2 ∧
    (create_fixed_weekly_table today account_type account_stats start_row
        weeks_to_show).2 = start_row + (weeks_to_show + 2) + 2 ∧
    ∀ i, i < weeks_to_show →
      ∃ total btc net,
        (create_fixed_weekly_table today account_type account_stats start_row
            weeks_to_show).1[i + 2]? =
          some (TRow.week (mondayOfDay today - 7 * (i : Int)) total btc net) ∧
        (lookupWeek account_stats account_type (mondayOfDay today - 7 * (i : Int)) =
            Option.none → total = 0 ∧ btc = 0 ∧ net = 0) ∧
        (∀ s, lookupWeek account_stats account_type (mondayOfDay today - 7 * (i : Int)) =
            some s → total = s.premium ∧ btc = s.btc_premium ∧ net = s.net_premium) := by
  refine ⟨?_, ?_, ?_⟩
  · simp only [create_fixed_weekly_table, List.length_append, List.length_cons,
      List.length_nil, List.length_map, List.length_range]
    omega
  · simp only [create_fixed_weekly_table, List.length_append, List.length_cons,
      List.length_nil, List.length_map, List.length_range]
    omega
  · intro i hi
    have hrow : (create_fixed_weekly_table today account_type account_stats start_row
        weeks_to_show).1[i + 2]? =
        some (match lookupWeek account_stats account_type
            (mondayOfDay today - 7 * (i : Int)) with
          | some s => TRow.week (mondayOfDay today - 7 * (i : Int))
              s.premium s.btc_premium s.net_premium
          | none => TRow.week (mondayOfDay today - 7 * (i : Int)) 0 0 0) := by
      simp only [create_fixed_weekly_table, List.cons_append, List.nil_append]
      rw [two_cons_getElem_add_two, List.getElem?_map, List.getElem?_range hi,
        Option.map_some']
    cases hlk : lookupWeek account_stats account_type (mondayOfDay today - 7 * (i : Int)) with
    | none =>
      simp only [hlk] at hrow
      exact ⟨0, 0, 0, hrow, fun _ => ⟨rfl, rfl, rfl⟩, fun s hs => Option.noConfusion hs⟩
    | some s =>
      simp only [hlk] at hrow
      exact ⟨s.premium, s.btc_premium, s.net_premium, hrow,
        fun hnone => Option.noConfusion hnone,
        fun u hu => by
          obtain rfl := Option.some.inj hu
          exact ⟨rfl, rfl, rfl⟩⟩

/-- Claim C7 witness: with an empty stats mapping, 8 trailing weeks starting
from day 0 (whose Monday is day −3) give a table of 10 rows, the first data
row being the zero-filled week −3, and next-row pointer 12. -/
theorem claim_c7_fixed_table_witness :
    (create_fixed_weekly_table 0 "Standard" (fun _ => Option.none) 0 8).1.length = 10 ∧
    (create_fixed_weekly_table 0 "Standard" (fun _ => Option.none) 0 8).2 = 12 ∧
    (create_fixed_weekly_table 0 "Standard" (fun _ => Option.none) 0 8).1[2]? =
      some (TRow.week (-3 : Int) 0 0 0) := by
  have h := claim_c7_fixed_table 0 "Standard" (fun _ => Option.none) 0 8
  obtain ⟨total, btc, net, hrow, hzero, _⟩ := h.2.2 0 (by decide)
  obtain ⟨rfl, rfl, rfl⟩ := hzero rfl
  exact ⟨h.1, h.2.1, by simpa using hrow⟩

/-- Claim C10: `enrich_option_orders` returns a list of the same length as
its input, and for every order the per-contract premium is the total premium
divided by the extracted quantity only when that quantity is strictly
positive (so the division is never performed with a non-positive divisor),
and 0 otherwise. -/
theorem claim_c10_enrich_division_guard (orders : List OptOrder) :
    (enrich_option_orders orders).length = orders.length ∧
    ∀ o : OptOrder,
      (0 < (enrichOrder o).quantity ∧
        (enrichOrder o).premium_per_contract * (enrichOrder o).quantity =
          (enrichOrder o).total_premium) ∨
      ((enrichOrder o).quantity ≤ 0 ∧ (enrichOrder o).premium_per_contract = 0) := by
  refine ⟨List.length_map orders enrichOrder, fun o => ?_⟩
  by_cases hq : extract_quantity o > 0
  · left
    refine ⟨hq, ?_⟩
    show (if extract_quantity o > 0 then _ / extract_quantity o else 0) *
        extract_quantity o = _
    rw [if_pos hq]
    exact div_mul_cancel₀ _ (ne_of_gt hq)
  · right
    refine ⟨not_lt.mp hq, ?_⟩
    show (if extract_quantity o > 0 then _ / extract_quantity o else 0) = 0
    rw [if_neg hq]

end RH
